import Mathlib

/-!
Verification of the ble2mqtt bridge (MQTT↔BLE) against its specification.

The development shallowly embeds the parts of the two Python source files
that the claims are about:

* `ble2mqtt/devices/kettle_xiaomi.py` — status-record decoding
  (`MiKettleState.from_bytes`), the RC4-style stream cipher
  (`XiaomiCipherMixin`), and the kettle's publishing loop
  (`XiaomiKettle.handle` / `XiaomiKettle._notify_state`);
* `ble2mqtt.py` — the inbound-message dispatch loop
  (`Ble2Mqtt._handle_messages`), the broker connection loop
  (`Ble2Mqtt._connect_forever`) and the per-device supervisor
  (`Ble2Mqtt.manage_device`).

Bytes are modelled as `Nat` with explicit `% 256` where the code masks
with `& 0xff`; Python `bytes` values become `List Nat`; fallible decoding
returns `Option`; the unbounded `while True:` loops become fuel-indexed
recursions, where a `none` result means the loop was still running when
the fuel ran out (i.e. it has not terminated by then).
-/

/- ································ Kettle status record ·································
   Python: `MiKettleState` in ble2mqtt/devices/kettle_xiaomi.py.
   `FORMAT = '<BBHBBBHBBB'` — sizes 1+1+2+1+1+1+2+1+1+1 = 12 bytes; `struct.unpack`
   raises `struct.error` unless the input is exactly 12 bytes long.  The enum
   constructors `Mode(x)` / `LEDMode(x)` / `KeepWarmType(x)` raise `ValueError`
   on a value that is not a member; both failures are modelled as `none`. -/

inductive Mode
  | IDLE | HEATING | COOLING | KEEP_WARM
deriving DecidableEq, Repr

/-- `Mode(x)` of the Python `Enum`: `IDLE = 0x00`, `HEATING = 0x01`,
`COOLING = 0x02`, `KEEP_WARM = 0x03`; any other value raises. -/
def Mode.ofValue : Nat → Option Mode
  | 0x00 => some .IDLE
  | 0x01 => some .HEATING
  | 0x02 => some .COOLING
  | 0x03 => some .KEEP_WARM
  | _ => none

inductive LEDMode
  | BOIL | KEEP_WARM | NONE
deriving DecidableEq, Repr

/-- `LEDMode(x)`: `BOIL = 0x01`, `KEEP_WARM = 0x02`, `NONE = 0xFF`. -/
def LEDMode.ofValue : Nat → Option LEDMode
  | 0x01 => some .BOIL
  | 0x02 => some .KEEP_WARM
  | 0xFF => some .NONE
  | _ => none

inductive KeepWarmType
  | BOIL_AND_COOLDOWN | HEAT_TO_TEMP
deriving DecidableEq, Repr

/-- `KeepWarmType(x)`: `BOIL_AND_COOLDOWN = 0x00`, `HEAT_TO_TEMP = 0x01`. -/
def KeepWarmType.ofValue : Nat → Option KeepWarmType
  | 0x00 => some .BOIL_AND_COOLDOWN
  | 0x01 => some .HEAT_TO_TEMP
  | _ => none

structure MiKettleState where
  mode : Mode
  led_mode : LEDMode
  temperature : Nat
  target_temperature : Nat
  keep_warm_type : KeepWarmType
  keep_warm_time : Nat
deriving DecidableEq, Repr

/-- `MiKettleState.from_bytes(response)`: `struct.unpack('<BBHBBBHBBB', response)`
followed by the enum constructors.  Field layout (little-endian): byte 0 mode,
byte 1 led_mode, bytes 2–3 an ignored 16-bit field, byte 4 target temperature,
byte 5 current temperature, byte 6 keep-warm type, bytes 7–8 keep-warm time
(low byte first), bytes 9–11 ignored.  Any length other than the format's
12 bytes is a `struct.error`, i.e. `none`. -/
def MiKettleState.from_bytes (response : List Nat) : Option MiKettleState :=
  if response.length = 12 then do
    let mode ← Mode.ofValue (response.getD 0 0)
    let led_mode ← LEDMode.ofValue (response.getD 1 0)
    let target_temp := response.getD 4 0
    let current_temp := response.getD 5 0
    let keep_warm_type ← KeepWarmType.ofValue (response.getD 6 0)
    let keep_warm_time := response.getD 7 0 + 256 * response.getD 8 0
    pure {
      mode := mode
      led_mode := led_mode
      temperature := current_temp
      target_temperature := target_temp
      keep_warm_type := keep_warm_type
      keep_warm_time := keep_warm_time
    }
  else none

/- ·································· Stream cipher ····································
   Python: `XiaomiCipherMixin._cipher_init`, `_cipher_crypt`, `cipher`.  The
   permutation is a 256-entry byte table, modelled as `List Nat`; Python's
   simultaneous assignment `perm[i], perm[j] = perm[j], perm[i]` becomes
   `swapL`. -/

/-- Swap the entries at positions `a` and `b` of `l` (both new values taken
from the original list, as in Python's tuple assignment). -/
def swapL (l : List Nat) (a b : Nat) : List Nat :=
  (l.set a (l.getD b 0)).set b (l.getD a 0)

/-- `_cipher_init(key)`: start from the identity table `[0, …, 255]`, then for
`i` in `0..255` set `j := (j + perm[i] + key[i % len(key)]) & 0xff` and swap
`perm[i]` with `perm[j]` (RC4 key schedule). -/
def cipher_init (key : List Nat) : List Nat :=
  ((List.range 256).foldl
    (fun st i =>
      let j := (st.2 + st.1.getD i 0 + key.getD (i % key.length) 0) % 256
      (swapL st.1 i j, j))
    (List.range 256, 0)).1

/-- `_cipher_crypt(input, perm)`: RC4 keystream generation.  Per input byte:
`index1 := (index1+1) & 0xff`, `index2 := (index2 + perm[index1]) & 0xff`,
swap `perm[index1]`/`perm[index2]`, output
`input[i] ^ perm[(perm[index1]+perm[index2]) & 0xff]` (masked to a byte).
The two indices start at 0. -/
def cipher_crypt : List Nat → List Nat → Nat → Nat → List Nat
  | [], _, _, _ => []
  | b :: bs, perm, index1, index2 =>
    let i1 := (index1 + 1) % 256
    let i2 := (index2 + perm.getD i1 0) % 256
    let perm2 := swapL perm i1 i2
    let idx := (perm2.getD i1 0 + perm2.getD i2 0) % 256
    ((b ^^^ perm2.getD idx 0) % 256) :: cipher_crypt bs perm2 i1 i2

/-- `cipher(key, input)`: build a fresh permutation table from `key` with
`_cipher_init` and consume it with `_cipher_crypt`. -/
def cipher (key input : List Nat) : List Nat :=
  cipher_crypt input (cipher_init key) 0 0

/- ······························ Kettle publishing loop ································
   Python: `XiaomiKettle._notify_state` and `XiaomiKettle.handle`.
   `transform_value` and `linkquality` live in `devices/base.py`, which is not
   part of the sources here; they are taken as parameters (`transform`, `lq`)
   so nothing about them is assumed.  Likewise `update_device_data` (awaited at
   the top of each loop iteration) performs no publish to the state topic and
   is omitted.  Time stamps are `Nat` seconds; Python's `not send_time` is true
   when `send_time` is `None` or the float `0.0`. -/

/-- `XiaomiKettle.SEND_INTERVAL = 30`. -/
def SEND_INTERVAL : Nat := 30

/-- The names of the kettle's `sensor`-domain entities, from
`XiaomiKettle.entities` (a single `temperature` sensor). -/
def sensorEntityNames : List String := ["temperature"]

/-- `XiaomiKettle._notify_state(publish_topic)`: build the state dict by
walking the `(sensor_name, value)` pairs — here just
`('temperature', state.temperature)` — keeping those whose name appears among
the sensor entities (value passed through `transform_value`); if the dict is
non-empty, add `linkquality` and publish the dict as JSON to
`unique_id + '/state'`.  The result is `some (topic, payload)` when a publish
happens, `none` when the dict stayed empty. -/
def notify_state (uid : String) (transform : Nat → Nat) (lq : Nat)
    (st : MiKettleState) : Option (String × List (String × Nat)) :=
  let pairs := [("temperature", st.temperature)]
  let state := (pairs.filter (fun p => sensorEntityNames.contains p.1)).map
    (fun p => (p.1, transform p.2))
  if state = [] then none
  else some (uid ++ "/state", state ++ [("linkquality", lq)])

/-- Python truthiness of the recorded send time: `not send_time` holds when it
is `None` or `0`. -/
def sendTimeFalsy : Option Nat → Bool
  | none => true
  | some t => t == 0

/-- One iteration of the `while True:` body of `XiaomiKettle.handle`: if
`self._state` is set and (`not send_time or time.time() - send_time >
SEND_INTERVAL`), record `send_time = time.time()` and run `_notify_state`.
Returns the publish performed this iteration (if any) and the new
`send_time`. -/
def handleStep (uid : String) (transform : Nat → Nat) (lq : Nat)
    (state : Option MiKettleState) (send_time : Option Nat) (now : Nat) :
    Option (String × List (String × Nat)) × Option Nat :=
  match state with
  | none => (none, send_time)
  | some st =>
    if sendTimeFalsy send_time || (now - send_time.getD 0 > SEND_INTERVAL) then
      (notify_state uid transform lq st, some now)
    else (none, send_time)

/-- Run `XiaomiKettle.handle`'s loop body over a list of iterations, each given
by the state observed that iteration and the current time; `send_time` starts
as the given value (`None` at the top of `handle`).  Returns the per-iteration
publishes and the final `send_time`. -/
def handleRun (uid : String) (transform : Nat → Nat) (lq : Nat) :
    List (Option MiKettleState × Nat) → Option Nat →
    List (Option (String × List (String × Nat))) × Option Nat
  | [], send_time => ([], send_time)
  | (st, now) :: rest, send_time =>
    let step := handleStep uid transform lq st send_time now
    let tail := handleRun uid transform lq rest step.2
    (step.1 :: tail.1, tail.2)

/- ······························ Inbound message dispatch ······························
   Python: `Ble2Mqtt._handle_messages`.  Topics are modelled as lists of path
   segments; `'/'.join((TOPIC_ROOT, topic))` prepends the root segment and
   `message.topic_name.removeprefix(f'{TOPIC_ROOT}/')` drops it when present.
   One delivered message is processed by an inner `while True:` loop whose
   iterations are counted by fuel; a `none` result means the loop never
   finished (the code's busy loop).  `await device.client.is_connected()` for
   the `k`-th connectivity check is `conn k`.  The JSON parse of the payload is
   omitted: both the parsed and the fall-back branch continue identically into
   `device.process_topic`. -/

/-- `Ble2Mqtt.TOPIC_ROOT = 'ble2mqtt'` (as a path segment). -/
def TOPIC_ROOT : String := "ble2mqtt"

/-- A registered device as the dispatch loop sees it: its unique id and its
relative `subscribed_topics`. -/
structure DeviceM where
  uniqueId : String
  subscribedTopics : List (List String)
deriving DecidableEq, Repr

/-- `Ble2Mqtt.subscribed_topics`: every device's relative topics, each with the
root segment prepended. -/
def subscribedTopicsFull (reg : List DeviceM) : List (List String) :=
  reg.flatMap (fun d => d.subscribedTopics.map (fun t => TOPIC_ROOT :: t))

/-- `topic_name.removeprefix(f'{TOPIC_ROOT}/')`: drop the leading root segment
when present, otherwise return the topic unchanged. -/
def stripRoot : List String → List String
  | [] => []
  | r :: rest => if r = TOPIC_ROOT then rest else r :: rest

/-- The `for _device in self.device_registry: … break / else: raise` search:
first registered device whose `subscribed_topics` contain the stripped
topic. -/
def findDev (reg : List DeviceM) (t : List String) : Option DeviceM :=
  reg.find? (fun d => d.subscribedTopics.contains t)

/-- How the inner `while True:` loop of `_handle_messages` ends for one
delivered message: either `device.process_topic(topic_wo_prefix, …)` was
reached (then `break`), or the registry search fell through to
`raise NotImplementedError('Unknown topic')`. -/
inductive DispatchOutcome
  | processed (d : DeviceM) (topic : List String)
  | unknownTopicFatal
deriving DecidableEq, Repr

/-- The inner `while True:` loop of `_handle_messages` for one delivered
message with topic `tn`.  Per iteration: if `tn` is not among the full
subscribed topics, `continue` (same message again); otherwise resolve the
owning device (first match, else the fatal raise); if the device's client is
not connected — `conn k` for the `k`-th connectivity check — log a warning and
`continue`; otherwise process the message and `break`.  The result carries the
outcome and the number of offline warnings logged; `none` means the loop was
still spinning after `fuel` iterations. -/
def handleMessagesLoop (reg : List DeviceM) (tn : List String)
    (conn : Nat → Bool) : Nat → Nat → Option (DispatchOutcome × Nat)
  | _, 0 => none
  | k, fuel + 1 =>
    if tn ∈ subscribedTopicsFull reg then
      match findDev reg (stripRoot tn) with
      | some d =>
        if conn k then some (.processed d (stripRoot tn), k)
        else handleMessagesLoop reg tn conn (k + 1) fuel
      | none => some (.unknownTopicFatal, k)
    else handleMessagesLoop reg tn conn k fuel

/- ································ Broker connection loop ·······························
   Python: `Ble2Mqtt._connect_forever`.  Each `while True:` iteration makes one
   `connect` attempt and then follows exactly one of the code's branches; the
   branch taken is abstracted as a `ConnOutcome`.  The `logger.info` calls are
   not modelled; `logger.error` calls are. -/

/-- How one iteration of `_connect_forever` resolves. -/
inductive ConnOutcome
  | success          -- connect, publish online, spawn supervisors, then the
                     -- disconnect reason arrives without an exception
  | cancelled        -- `aio.CancelledError` (re-raised)
  | accessRefused    -- `aio_mqtt.AccessRefusedError`
  | connectionLost   -- `aio_mqtt.ConnectionLostError`
  | closeForced      -- `aio_mqtt.ConnectionCloseForcedError`
  | otherError       -- any other exception
deriving DecidableEq, Repr

/-- Externally visible actions of one `_connect_forever` iteration. -/
inductive CFEvent
  | logError
  | sleepSec (n : Nat)
  | publishOnline
  | publishOffline
  | spawnSupervisors
deriving DecidableEq, Repr

/-- What the loop does after an iteration: fall through to the next `while
True:` iteration, leave the loop (`return`), or re-raise the cancellation. -/
inductive CFNext
  | retryLoop
  | exitLoop
  | propagateCancel
deriving DecidableEq, Repr

/-- One iteration of `_connect_forever`, given the reconnection interval
`rI` (`self._reconnection_interval`): the events it performs and whether the
loop continues.  Branches, in the order of the source:
`success` runs the `try` body then the `else` clause (publish offline,
`return`); `cancelled` re-raises; `accessRefused` only logs the error — the
loop falls through to the next attempt; `connectionLost` logs and sleeps `rI`;
`closeForced` logs and returns; any other exception logs, best-effort publishes
offline and returns. -/
def connectForeverStep (rI : Nat) : ConnOutcome → List CFEvent × CFNext
  | .success => ([.publishOnline, .spawnSupervisors, .publishOffline], .exitLoop)
  | .cancelled => ([], .propagateCancel)
  | .accessRefused => ([.logError], .retryLoop)
  | .connectionLost => ([.logError, .sleepSec rI], .retryLoop)
  | .closeForced => ([.logError], .exitLoop)
  | .otherError => ([.logError, .publishOffline], .exitLoop)

/-- Number of connection attempts `_connect_forever` makes when successive
iterations resolve as the given outcomes (the list ends the run if the loop is
still going). -/
def connectForeverAttempts (rI : Nat) : List ConnOutcome → Nat
  | [] => 0
  | o :: rest =>
    1 + (match (connectForeverStep rI o).2 with
      | .retryLoop => connectForeverAttempts rI rest
      | _ => 0)

/- ································ Device supervisor ···································
   Python: `Ble2Mqtt.manage_device`.  One `while True:` iteration (one
   connection cycle) is classified by how far it got; the events of the cycle
   and whether another cycle follows are derived exactly from the source's
   control flow.  Two Python subtleties matter:
   `self._device_handles.pop(device)` raises `KeyError` when the `handle` task
   was never created (no entry for the device), and the `continue` inside the
   `finally:` block both discards any in-flight exception and jumps straight to
   the next `while` iteration, skipping the unsubscribe and the
   `await aio.sleep(3)`. -/

/-- How one connection cycle of `manage_device` unfolds:
`connectFail` — `device.connect()` raised;
`raisedBeforeHandle` — the second `try` body raised before
`self._device_handles[device]` was assigned (in `send_device_config`,
`init()` or the topic `subscribe`);
`afterHandle raised taskDone` — the `handle` task was created, and the cycle
reached the `finally:` block either normally (`raised = false`, the
disconnected future fired) or with an exception in flight (`raised = true`);
`taskDone` is the value of `task.done()` at teardown. -/
inductive CycleInput
  | connectFail
  | raisedBeforeHandle
  | afterHandle (raised : Bool) (taskDone : Bool)
deriving DecidableEq, Repr

/-- Externally visible actions of one `manage_device` cycle. -/
inductive MDEvent
  | logException
  | sleepSec (n : Nat)
  | cancelHandle
  | awaitHandle
  | unsubscribe
deriving DecidableEq, Repr

/-- How the cycle ends: fall through to the next `while True:` iteration, or
let an exception escape the loop (ending the supervisor task). -/
inductive MDOutcome
  | nextCycle
  | crash
deriving DecidableEq, Repr

/-- One connection cycle of `manage_device`: the events performed and how the
cycle ends, read off the source's control flow.
`connectFail`: `except` logs and sleeps 10 s, `continue`.
`raisedBeforeHandle`: the `finally:` block's `pop` finds no entry and raises
`KeyError`, which replaces the in-flight exception and escapes the loop.
`afterHandle _ true`: `pop` returns the task, `task.done()` holds, `continue`
discards any in-flight exception and skips unsubscribe and the 3 s sleep.
`afterHandle raised false`: the task is cancelled and awaited (cancellation
swallowed) and the topics unsubscribed; then the in-flight exception, if any,
resumes and escapes the loop, otherwise the cycle sleeps 3 s and repeats. -/
def manageDeviceCycle : CycleInput → List MDEvent × MDOutcome
  | .connectFail => ([.logException, .sleepSec 10], .nextCycle)
  | .raisedBeforeHandle => ([], .crash)
  | .afterHandle _ true => ([], .nextCycle)
  | .afterHandle raised false =>
    ([.cancelHandle, .awaitHandle, .unsubscribe]
       ++ (if raised then [] else [.sleepSec 3]),
     if raised then .crash else .nextCycle)

/- ···································· Demo inputs ····································· -/

/-- The kettle state encoded by the record `01 01 00 00 64 2D 00 05 00 00 00 00`. -/
def demoState : MiKettleState :=
  { mode := .HEATING, led_mode := .BOIL, temperature := 45,
    target_temperature := 100, keep_warm_type := .BOIL_AND_COOLDOWN,
    keep_warm_time := 5 }

/-- A registered device as the dispatch loop sees it: unique id `kettle1`,
subscribed to the relative topic `kettle1/temperature/set`. -/
def demoDev : DeviceM :=
  { uniqueId := "kettle1", subscribedTopics := [["kettle1", "temperature", "set"]] }

/-- A registry holding just `demoDev`. -/
def demoReg : List DeviceM := [demoDev]

/-- The full topic `ble2mqtt/kettle1/temperature/set` of a delivered message
addressed to `demoDev`. -/
def demoTopic : List String := ["ble2mqtt", "kettle1", "temperature", "set"]

/-- A delivered topic `ble2mqtt/nosuch` that no registered device of `demoReg`
subscribes to. -/
def unknownTopic : List String := ["ble2mqtt", "nosuch"]

/- ·································· Helper lemmas ····································· -/

/-- XOR-ing a byte twice with the same keystream value, masking to a byte in
between as `_cipher_crypt` does, recovers the byte. -/
theorem xor_mod_cancel (a k : Nat) (ha : a < 256) :
    ((a ^^^ k) % 256 ^^^ k) % 256 = a := by
  have h8 : (256 : Nat) = 2 ^ 8 := by norm_num
  apply Nat.eq_of_testBit_eq
  intro i
  rw [h8]
  simp only [Nat.testBit_mod_two_pow, Nat.testBit_xor]
  by_cases hi : i < 8
  · simp [hi, Bool.xor_assoc]
  · simp only [hi, decide_False, Bool.false_and]
    exact (Nat.testBit_lt_two_pow
      (lt_of_lt_of_le ha (h8 ▸ Nat.pow_le_pow_right (by norm_num)
        (Nat.le_of_not_lt hi)))).symm

/-- Running `_cipher_crypt` twice from the same permutation table and indices
is the identity on byte strings: the keystream consumed at each position
depends only on the evolving table and indices, never on the input byte. -/
theorem cipher_crypt_invol : ∀ (input : List Nat), (∀ b ∈ input, b < 256) →
    ∀ (perm : List Nat) (i1 i2 : Nat),
      cipher_crypt (cipher_crypt input perm i1 i2) perm i1 i2 = input
  | [], _, _, _, _ => rfl
  | b :: bs, h, perm, i1, i2 => by
    simp only [cipher_crypt]
    congr 1
    · exact xor_mod_cancel b _ (h b (List.mem_cons_self _ _))
    · exact cipher_crypt_invol bs (fun x hx => h x (List.mem_cons_of_mem _ hx)) _ _ _

/-- `_cipher_crypt` emits exactly one output byte per input byte. -/
theorem cipher_crypt_length : ∀ (input perm : List Nat) (i1 i2 : Nat),
    (cipher_crypt input perm i1 i2).length = input.length
  | [], _, _, _ => rfl
  | _ :: bs, perm, i1, i2 => by
    simp only [cipher_crypt, List.length_cons]
    exact congrArg (· + 1) (cipher_crypt_length bs _ _ _)

/-- The publish gate of `XiaomiKettle.handle`, as a proposition: the recorded
send time is falsy (`None` or `0`) or strictly more than `SEND_INTERVAL`
seconds have passed since it. -/
theorem handle_gate_iff (send_time : Option Nat) (now : Nat) :
    (sendTimeFalsy send_time || decide (now - send_time.getD 0 > SEND_INTERVAL))
        = true
      ↔ (send_time = none ∨ send_time = some 0 ∨ now - send_time.getD 0 > 30) := by
  cases send_time with
  | none => simp [sendTimeFalsy]
  | some t => simp [sendTimeFalsy, SEND_INTERVAL]

/-- A message whose full topic is routed to a connected-later device: with the
topic subscribed and resolving to `d`, and the device's connectivity checks
failing `n` times from check `k` on and succeeding at check `k + n`, the
dispatch loop reaches `process_topic` after exactly `n` offline warnings. -/
theorem handleMessagesLoop_offline_retry (reg : List DeviceM) (tn : List String)
    (d : DeviceM) (hmem : tn ∈ subscribedTopicsFull reg)
    (hfind : findDev reg (stripRoot tn) = some d) (conn : Nat → Bool) :
    ∀ (n k : Nat), (∀ i, i < n → conn (k + i) = false) → conn (k + n) = true →
      handleMessagesLoop reg tn conn k (n + 1)
        = some (.processed d (stripRoot tn), k + n)
  | 0, k, _, hon => by
    rw [Nat.add_zero] at hon
    simp only [handleMessagesLoop, if_pos hmem, hfind, hon, if_pos, Nat.add_zero]
  | n + 1, k, hoff, hon => by
    have h0 : conn k = false := by simpa using hoff 0 (Nat.succ_pos n)
    have tail := handleMessagesLoop_offline_retry reg tn d hmem hfind conn n (k + 1)
      (fun i hi => by
        have := hoff (i + 1) (Nat.succ_lt_succ hi)
        simpa [Nat.add_comm, Nat.add_left_comm, Nat.add_assoc] using this)
      (by
        have hkn : k + 1 + n = k + (n + 1) := by omega
        rw [hkn]; exact hon)
    have hkn : k + 1 + n = k + (n + 1) := by omega
    rw [hkn] at tail
    simp only [handleMessagesLoop, if_pos hmem, hfind, h0] at tail ⊢
    simpa using tail

/- ·································· Claim theorems ···································· -/

/-- C1 (counterexample): decoding the 13-byte record
`01 01 00 00 64 2D 00 05 00 00 00 00 00` with `MiKettleState.from_bytes` does
not succeed — the struct format `'<BBHBBBHBBB'` is 12 bytes wide, so the
13-byte input is a decode failure. -/
theorem c1_thirteen_byte_record_fails :
    MiKettleState.from_bytes
      [0x01, 0x01, 0x00, 0x00, 0x64, 0x2D, 0x00, 0x05, 0x00, 0x00, 0x00, 0x00,
       0x00] = none := by
  decide

/-- C1 (amended): decoding the 12-byte record `01 01 00 00 64 2D 00 05 00 00
00 00` with `MiKettleState.from_bytes` succeeds and yields `mode = HEATING`,
`led_mode = BOIL`, `target_temperature = 100`, `temperature = 45`,
`keep_warm_type = BOIL_AND_COOLDOWN`, `keep_warm_time = 5`. -/
theorem c1_twelve_byte_record_decodes :
    MiKettleState.from_bytes
      [0x01, 0x01, 0x00, 0x00, 0x64, 0x2D, 0x00, 0x05, 0x00, 0x00, 0x00, 0x00]
      = some demoState := by
  decide

/-- C2: for every non-empty key `K` and every byte string `M`,
`cipher(K, cipher(K, M)) = M` — each `cipher` call performs its own key
schedule from `K`, and the keystream XOR cancels. -/
theorem c2_cipher_roundtrip (K M : List Nat) (hK : K ≠ [])
    (hKb : ∀ b ∈ K, b < 256) (hM : ∀ b ∈ M, b < 256) :
    cipher K (cipher K M) = M :=
  cipher_crypt_invol M hM (cipher_init K) 0 0

/-- C2 (witness): the round trip at the concrete key `4B 65 79` and message
`50 6C 61 69 6E 74`. -/
theorem c2_cipher_roundtrip_witness :
    ([0x4B, 0x65, 0x79] : List Nat) ≠ [] ∧
    (∀ b ∈ ([0x4B, 0x65, 0x79] : List Nat), b < 256) ∧
    (∀ b ∈ ([0x50, 0x6C, 0x61, 0x69, 0x6E, 0x74] : List Nat), b < 256) ∧
    cipher [0x4B, 0x65, 0x79]
        (cipher [0x4B, 0x65, 0x79] [0x50, 0x6C, 0x61, 0x69, 0x6E, 0x74])
      = [0x50, 0x6C, 0x61, 0x69, 0x6E, 0x74] :=
  ⟨by decide, by decide, by decide,
   c2_cipher_roundtrip _ _ (by decide) (by decide) (by decide)⟩

/-- C6 (counterexample): the 12-byte record `01 01 00 00 64 2D 00 05 00 00 00
00` has a length other than 13 bytes, yet `MiKettleState.from_bytes` decodes
it successfully — the claim that every non-13-byte input fails is false. -/
theorem c6_twelve_bytes_succeed :
    ([0x01, 0x01, 0x00, 0x00, 0x64, 0x2D, 0x00, 0x05, 0x00, 0x00, 0x00, 0x00]
        : List Nat).length ≠ 13 ∧
    (MiKettleState.from_bytes
      [0x01, 0x01, 0x00, 0x00, 0x64, 0x2D, 0x00, 0x05, 0x00, 0x00, 0x00, 0x00]
      ).isSome = true := by
  decide

/-- C6 (amended): for every byte string whose length is not 12 bytes,
`MiKettleState.from_bytes` fails with a decode error — it never silently
truncates or succeeds on a record of another length. -/
theorem c6_wrong_length_fails (response : List Nat)
    (h : response.length ≠ 12) :
    MiKettleState.from_bytes response = none := by
  simp [MiKettleState.from_bytes, h]

/-- C6 (witness): a 3-byte record is refused. -/
theorem c6_wrong_length_fails_witness :
    ([1, 2, 3] : List Nat).length ≠ 12 ∧
    MiKettleState.from_bytes [1, 2, 3] = none :=
  ⟨by decide, c6_wrong_length_fails _ (by decide)⟩

/-- C10: for every non-empty key `K` and every input byte string `D`,
`cipher(K, D)` has exactly the length of `D`, and `cipher` is a pure function
of its arguments — equal key and input give equal output (the permutation
table consumed by `_cipher_crypt` is rebuilt inside each `cipher` call). -/
theorem c10_cipher_length_and_pure (K D : List Nat) (hK : K ≠ [])
    (hKb : ∀ b ∈ K, b < 256) (hDb : ∀ b ∈ D, b < 256) :
    (cipher K D).length = D.length ∧
    ∀ K2 D2, K = K2 → D = D2 → cipher K D = cipher K2 D2 := by
  refine ⟨cipher_crypt_length D (cipher_init K) 0 0, ?_⟩
  rintro K2 D2 rfl rfl
  rfl

/-- C10 (witness): length preservation and determinism at the concrete key
`07` and input `01 02 03`. -/
theorem c10_cipher_length_and_pure_witness :
    ([7] : List Nat) ≠ [] ∧
    (cipher [7] [1, 2, 3]).length = 3 ∧
    cipher [7] [1, 2, 3] = cipher [7] [1, 2, 3] :=
  ⟨by decide,
   (c10_cipher_length_and_pure [7] [1, 2, 3] (by decide) (by decide)
      (by decide)).1,
   (c10_cipher_length_and_pure [7] [1, 2, 3] (by decide) (by decide)
      (by decide)).2 [7] [1, 2, 3] rfl rfl⟩

/-- C8: for every number of consecutive `handle`-loop iterations executed
while the kettle state is still absent (`self._state` is `None`), starting
from `handle`'s initial `send_time = None`, no publish to the state topic
occurs in any of those iterations (and `send_time` stays `None`). -/
theorem c8_no_publish_before_first_state (uid : String) (transform : Nat → Nat)
    (lq : Nat) (times : List Nat) :
    handleRun uid transform lq
        (times.map fun t => ((none : Option MiKettleState), t)) none
      = (times.map fun _ => none, none) := by
  induction times with
  | nil => rfl
  | cons t ts ih => simp [handleRun, handleStep, ih]

/-- C9 (counterexample): with a state present, a previous publish recorded at
time 100 and the clock at 130, at least 30 seconds have elapsed, yet the
`handle` iteration publishes nothing — the code's gate is strictly
`> SEND_INTERVAL`, not "at least 30 seconds". -/
theorem c9_thirty_seconds_no_publish :
    (130 : Nat) - 100 ≥ 30 ∧
    handleStep "kettle1" id 70 (some demoState) (some 100) 130
      = (none, some 100) := by
  constructor
  · decide
  · rfl

/-- C9 (amended): in each `handle` iteration, a state publish occurs if and
only if the state is present and either no publish time is recorded (`None`,
or the degenerate recorded time `0`, which Python's `not send_time` also
treats as unset) or strictly more than 30 seconds have elapsed since it; when
it occurs, the JSON object `{temperature: transform(state.temperature),
linkquality: lq}` is published to `<unique-id>/state` and the publish time is
recorded. -/
theorem c9_publish_gate (uid : String) (transform : Nat → Nat) (lq : Nat)
    (st : MiKettleState) (send_time : Option Nat) (now : Nat) :
    handleStep uid transform lq none send_time now = (none, send_time) ∧
    (handleStep uid transform lq (some st) send_time now
        = (some (uid ++ "/state",
            [("temperature", transform st.temperature), ("linkquality", lq)]),
           some now)
      ↔ (send_time = none ∨ send_time = some 0
          ∨ now - send_time.getD 0 > 30)) := by
  refine ⟨rfl, ?_⟩
  rw [← handle_gate_iff send_time now]
  constructor
  · intro h
    by_contra hg
    rw [handleStep, if_neg hg] at h
    exact Option.noConfusion (congrArg Prod.fst h)
  · intro hg
    rw [handleStep, if_pos hg]
    rfl

/-- C4 (counterexample): a message for `demoDev` delivered while the device's
connection check fails, with the device connected again at the next check: the
dispatch loop logs the offline warning but does not drop the message — it
loops and `process_topic` is invoked for that same message. -/
theorem c4_offline_message_still_processed :
    (fun k => decide (1 ≤ k)) 0 = false ∧
    handleMessagesLoop demoReg demoTopic (fun k => decide (1 ≤ k)) 0 2
      = some (.processed demoDev ["kettle1", "temperature", "set"], 1) := by
  constructor
  · rfl
  · decide

/-- C4 (amended): for a message whose topic is subscribed and resolves to
device `d`, a failing connectivity check logs a warning and retries the same
message in the busy loop rather than dropping it: with the first `n` checks
offline and check `n` online, the loop ends by invoking `process_topic` for
that message, after exactly `n` offline warnings. -/
theorem c4_offline_retries_then_processes (reg : List DeviceM)
    (tn : List String) (d : DeviceM) (hmem : tn ∈ subscribedTopicsFull reg)
    (hfind : findDev reg (stripRoot tn) = some d) (n : Nat)
    (conn : Nat → Bool) (hoff : ∀ i, i < n → conn i = false)
    (hon : conn n = true) :
    handleMessagesLoop reg tn conn 0 (n + 1)
      = some (.processed d (stripRoot tn), n) := by
  have h := handleMessagesLoop_offline_retry reg tn d hmem hfind conn n 0
    (fun i hi => by simpa using hoff i hi) (by simpa using hon)
  simpa using h

/-- C4 (witness): the amended claim at `demoReg`/`demoTopic` with the first
two connectivity checks offline. -/
theorem c4_offline_retries_then_processes_witness :
    demoTopic ∈ subscribedTopicsFull demoReg ∧
    handleMessagesLoop demoReg demoTopic (fun k => decide (2 ≤ k)) 0 3
      = some (.processed demoDev (stripRoot demoTopic), 2) :=
  ⟨by decide,
   c4_offline_retries_then_processes demoReg demoTopic demoDev (by decide)
     (by decide) 2 (fun k => decide (2 ≤ k)) (by decide) (by decide)⟩

/-- C5: a message delivered under the root for a topic no registered device
subscribes to makes the dispatch loop spin forever: for every amount of fuel
the inner `while True:` loop has neither terminated nor raised — in
particular it never reaches `raise NotImplementedError('Unknown topic')`,
which sits behind the very membership test that failed. -/
theorem c5_unknown_topic_loops_forever (conn : Nat → Bool) :
    ∀ (fuel k : Nat),
      handleMessagesLoop demoReg unknownTopic conn k fuel = none
  | 0, _ => rfl
  | fuel + 1, k => by
    simp only [handleMessagesLoop, if_neg (by decide :
      ¬(unknownTopic ∈ subscribedTopicsFull demoReg))]
    exact c5_unknown_topic_loops_forever conn fuel k

/-- C3 (counterexample): a run of `_connect_forever` whose first connection
attempt ends in `AccessRefusedError` makes a second connection attempt — the
loop does not exit on access refused. -/
theorem c3_access_refused_retries :
    connectForeverAttempts 10 [.accessRefused, .closeForced] = 2 := rfl

/-- C3 (amended): when the broker connection attempt fails with an
access-refused error, the error is logged and the connection loop falls
through to the next iteration, immediately making another connection attempt
(no sleep, no exit). -/
theorem c3_access_refused_logs_and_retries (rI : Nat)
    (rest : List ConnOutcome) :
    connectForeverStep rI .accessRefused = ([.logError], .retryLoop) ∧
    connectForeverAttempts rI (.accessRefused :: rest)
      = 1 + connectForeverAttempts rI rest :=
  ⟨rfl, rfl⟩

/-- C7 (counterexample): a connection cycle in which the serve step finished
normally and the `handle` task is already done at teardown: the `continue`
inside the `finally:` block skips the whole teardown — no cancel/await, no
unsubscribe, no 3-second sleep — and the next cycle starts immediately. -/
theorem c7_done_task_skips_teardown :
    MDEvent.unsubscribe ∉ (manageDeviceCycle (.afterHandle false true)).1 ∧
    MDEvent.sleepSec 3 ∉ (manageDeviceCycle (.afterHandle false true)).1 ∧
    (manageDeviceCycle (.afterHandle false true)).2 = .nextCycle := by
  decide

/-- C7 (amended): the full teardown — cancel and await the `handle` task,
unsubscribe the device's topics — runs exactly in the cycles that reach the
`finally:` block with a created, not-yet-done `handle` task, whether or not
the serve step raised; the 3-second sleep and the next cycle follow only when
it did not raise (when it raised, teardown still runs but the exception then
escapes the loop).  When the task is already done, teardown is skipped
entirely and the next cycle starts at once; when the serve step raised before
the task was created, the teardown's `pop` itself raises and the supervisor
stops. -/
theorem c7_teardown_by_case :
    (∀ raised : Bool,
      manageDeviceCycle (.afterHandle raised false)
        = ([.cancelHandle, .awaitHandle, .unsubscribe]
             ++ (if raised then [] else [.sleepSec 3]),
           if raised then .crash else .nextCycle)) ∧
    (∀ raised : Bool,
      manageDeviceCycle (.afterHandle raised true) = ([], .nextCycle)) ∧
    manageDeviceCycle .raisedBeforeHandle = ([], .crash) :=
  ⟨fun _ => rfl, fun _ => rfl, rfl⟩
